import Mathlib

/-!
Verification of the TogglPy client library (src/toggl/TogglPy.py) against its
natural-language specification.

The Python code is shallowly embedded: JSON values become an inductive type,
Python dictionaries become association lists, raised exceptions become
`Except` errors, and the HTTP transport is abstracted away — each operation
is modelled up to the request it would issue (method, resolved endpoint URL,
JSON body), with server responses supplied as parameters where an operation
consumes one.
-/

/-- Decoded JSON values, as produced by Python's `json.JSONDecoder().decode`.
Python decodes JSON objects to `dict` (insertion-ordered, unique string keys),
arrays to `list`, strings to `str`, numbers to `int`/`float`, `true`/`false`
to `bool` and `null` to `None`.  Numbers are modelled as integers (every id,
duration and timestamp handled by this library is integral). -/
inductive Json where
  | null
  | bool (b : Bool)
  | num (n : Int)
  | str (s : String)
  | arr (xs : List Json)
  | obj (kvs : List (String × Json))

/-- Python exceptions that the embedded code can raise.  The library raises
bare `Exception(msg)` for its own validation failures (modelled as
`exception`, dropping the message text); `typeError`, `attributeError`,
`keyError` and `valueError` model the corresponding built-in exceptions. -/
inductive PyErr where
  | typeError
  | attributeError
  | keyError
  | valueError
  | exception
deriving DecidableEq, Repr

/-- Whether a `List Char` is a prefix of another, as an executable Bool. -/
def isPrefixL : List Char → List Char → Bool
  | [], _ => true
  | _ :: _, [] => false
  | a :: as, b :: bs => a = b && isPrefixL as bs

/-- Substring scan used below. -/
def containsSubAux (needle : List Char) : List Char → Bool
  | [] => needle.isEmpty
  | c :: t => isPrefixL needle (c :: t) || containsSubAux needle t

/-- Python's substring test `needle in hay` for strings. -/
def pyStrContains (hay needle : String) : Bool :=
  containsSubAux needle.toList hay.toList

/-- Python's membership test `needle in x` for a decoded JSON value `x`:
key membership on a dict, element equality on a list (for a string needle,
only string elements can compare equal), substring test on a string, and
`TypeError` on non-container scalars (`int`, `float`, `bool`, `None`). -/
def pyContains (j : Json) (needle : String) : Except PyErr Bool :=
  match j with
  | .obj kvs => .ok (kvs.any (fun kv => kv.1 = needle))
  | .arr xs => .ok (xs.any (fun x => match x with
      | .str s => s = needle
      | _ => false))
  | .str s => .ok (pyStrContains s needle)
  | _ => .error .typeError

/-- Python's `x.get(k)` : defined on dicts (value of `k`, or `None` when the
key is absent); every other decoded JSON value has no `get` attribute and
raises `AttributeError`. -/
def pyGet (j : Json) (k : String) : Except PyErr Json :=
  match j with
  | .obj kvs => .ok ((kvs.lookup k).getD .null)
  | _ => .error .attributeError

/-- Python dict assignment `d[k] = v` for a key already present: the value of
every binding of `k` is replaced in place (decoded JSON dicts have unique
keys, so exactly one binding changes).  On non-dict values the function is
never reached by the code below and returns the value unchanged. -/
def pySetItem (j : Json) (k : String) (v : Json) : Json :=
  match j with
  | .obj kvs => .obj (kvs.map (fun kv => if kv.1 = k then (k, v) else kv))
  | other => other

/-- `Toggl.decodeJSON`, modelled from the decoded value onward (the text →
value parse is Python's `json` facility, an external collaborator):

    decoded = json.JSONDecoder().decode(json_string)
    if 'tag_ids' in decoded and decoded.get('tag_ids') is None:
        decoded['tag_ids'] = []
    return decoded

`and` short-circuits, so `.get` is only evaluated when the membership test
succeeded. -/
def decodeJSON (decoded : Json) : Except PyErr Json :=
  match pyContains decoded "tag_ids" with
  | .error e => .error e
  | .ok false => .ok decoded
  | .ok true =>
    match pyGet decoded "tag_ids" with
    | .error e => .error e
    | .ok .null => .ok (pySetItem decoded "tag_ids" (Json.arr []))
    | .ok _ => .ok decoded

theorem any_key_eq_lookup_isSome (kvs : List (String × Json)) (k : String) :
    kvs.any (fun kv => kv.1 = k) = (kvs.lookup k).isSome := by
  induction kvs with
  | nil => rfl
  | cons hd tl ih =>
    obtain ⟨a, v⟩ := hd
    by_cases h : a = k
    · simp [List.lookup, h, ih]
    · have hba : (k == a) = false := by simp [Ne.symm h]
      simp [List.lookup, h, hba, ih]

/-- C1, counterexample: the claim says every decoded value other than an
object with a null `tag_ids` — lists and scalars included — is returned
unchanged.  But on the decoded scalar `5` the membership test
`'tag_ids' in 5` raises `TypeError`, so `decodeJSON` does not return the
value unchanged. -/
theorem decodeJSON_scalar_cex_C1 :
    decodeJSON (Json.num 5) = .error .typeError ∧
    decodeJSON (Json.num 5) ≠ .ok (Json.num 5) := by
  refine ⟨rfl, ?_⟩
  intro h
  simp [decodeJSON, pyContains] at h

/-- C1 (amended): on a decoded JSON object, a null `tag_ids` value is
replaced by the empty list and any other object is returned unchanged; a
decoded list is returned unchanged only when it does not contain the string
`"tag_ids"` as an element (otherwise `AttributeError`); a decoded string is
returned unchanged only when it does not contain `"tag_ids"` as a substring
(otherwise `AttributeError`); decoded non-string scalars (numbers, booleans,
null) raise `TypeError` at the membership test. -/
theorem decodeJSON_tag_ids_claim_C1 (kvs : List (String × Json)) (xs : List Json)
    (s : String) (n : Int) (b : Bool) :
    (kvs.lookup "tag_ids" = some .null →
      decodeJSON (.obj kvs) =
        .ok (.obj (kvs.map (fun kv => if kv.1 = "tag_ids" then ("tag_ids", Json.arr []) else kv))))
    ∧ (kvs.lookup "tag_ids" = none → decodeJSON (.obj kvs) = .ok (.obj kvs))
    ∧ (∀ v, kvs.lookup "tag_ids" = some v → v ≠ .null → decodeJSON (.obj kvs) = .ok (.obj kvs))
    ∧ (xs.any (fun x => match x with | .str t => t = "tag_ids" | _ => false) = false →
        decodeJSON (.arr xs) = .ok (.arr xs))
    ∧ (xs.any (fun x => match x with | .str t => t = "tag_ids" | _ => false) = true →
        decodeJSON (.arr xs) = .error .attributeError)
    ∧ (pyStrContains s "tag_ids" = false → decodeJSON (.str s) = .ok (.str s))
    ∧ (pyStrContains s "tag_ids" = true → decodeJSON (.str s) = .error .attributeError)
    ∧ decodeJSON (.num n) = .error .typeError
    ∧ decodeJSON (.bool b) = .error .typeError
    ∧ decodeJSON .null = .error .typeError := by
  refine ⟨?_, ?_, ?_, ?_, ?_, ?_, ?_, rfl, rfl, rfl⟩
  · intro h
    simp [decodeJSON, pyContains, pyGet, pySetItem, any_key_eq_lookup_isSome, h]
  · intro h
    simp [decodeJSON, pyContains, pyGet, pySetItem, any_key_eq_lookup_isSome, h]
  · intro v hv hne
    cases v <;>
      simp [decodeJSON, pyContains, pyGet, pySetItem, any_key_eq_lookup_isSome, hv] <;>
      exact absurd rfl hne
  · intro h
    simp [decodeJSON, pyContains, h]
  · intro h
    simp [decodeJSON, pyContains, pyGet, h]
  · intro h
    simp [decodeJSON, pyContains, h]
  · intro h
    simp [decodeJSON, pyContains, pyGet, h]

/-- C1, witness: the amended theorem applied to the object with a null
tag-list and to an object without the key. -/
theorem decodeJSON_tag_ids_claim_C1_witness :
    decodeJSON (.obj [("tag_ids", .null)]) = .ok (.obj [("tag_ids", Json.arr [])]) ∧
    decodeJSON (.obj [("x", .num 1)]) = .ok (.obj [("x", .num 1)]) := by
  constructor
  · exact (decodeJSON_tag_ids_claim_C1 [("tag_ids", .null)] [] "" 0 false).1 rfl
  · exact (decodeJSON_tag_ids_claim_C1 [("x", .num 1)] [] "" 0 false).2.1 rfl

/-- UTF-8 encoding of one character, as a list of byte values (`str.encode()`). -/
def utf8Char (c : Char) : List Nat :=
  let n := c.toNat
  if n < 128 then [n]
  else if n < 2048 then [192 + n / 64, 128 + n % 64]
  else if n < 65536 then [224 + n / 4096, 128 + n / 64 % 64, 128 + n % 64]
  else [240 + n / 262144, 128 + n / 4096 % 64, 128 + n / 64 % 64, 128 + n % 64]

/-- UTF-8 encoding of a string (`str.encode()` with the default encoding). -/
def utf8Bytes (s : String) : List Nat :=
  s.data.flatMap utf8Char

/-- The standard base64 alphabet. -/
def b64chars : List Char :=
  "ABCDEFGHIJKLMNOPQRSTUVWXYZabcdefghijklmnopqrstuvwxyz0123456789+/".data

/-- Character of the base64 alphabet at a 6-bit index. -/
def b64char (n : Nat) : Char := b64chars.getD n 'A'

/-- Standard base64 of a byte sequence (`base64.b64encode`), with `=` padding. -/
def b64encodeL : List Nat → List Char
  | [] => []
  | [a] => [b64char (a / 4), b64char (a % 4 * 16), '=', '=']
  | [a, b] => [b64char (a / 4), b64char (a % 4 * 16 + b / 16), b64char (b % 16 * 4), '=']
  | a :: b :: c :: rest =>
      b64char (a / 4) :: b64char (a % 4 * 16 + b / 16) ::
      b64char (b % 16 * 4 + c / 64) :: b64char (c % 64) :: b64encodeL rest

/-- `b64encode(..)` followed by `.decode('ascii')`: base64 output is pure
ASCII, so the bytes→text decode is the identity on the characters. -/
def b64encode (bs : List Nat) : String := String.mk (b64encodeL bs)

/-- Python whitespace characters stripped by `str.rstrip()` (ASCII part;
base64 output contains no whitespace of any kind). -/
def pySpace (c : Char) : Bool :=
  c = ' ' || c = '\t' || c = '\n' || c = '\r' || c = '\x0b' || c = '\x0c'

/-- Python's `str.rstrip()`: remove trailing whitespace. -/
def pyRstrip (s : String) : String :=
  String.mk ((s.data.reverse.dropWhile pySpace).reverse)

/-- Python's `template.format(args...)`, for the brace-slot shapes used by the
library: an empty auto-numbered slot, or the explicit positional slots 0/1.
Arguments are already strings at every call site modelled here. -/
def formatAux (args : List String) : List Char → Nat → List Char
  | [], _ => []
  | [c], _ => [c]
  | [c, d], auto =>
    if c = '\x7b' ∧ d = '\x7d' then (args.getD auto "").data
    else c :: formatAux args [d] auto
  | c :: d :: e :: rest, auto =>
    if c = '\x7b' ∧ d = '\x7d' then
      (args.getD auto "").data ++ formatAux args (e :: rest) (auto + 1)
    else if c = '\x7b' ∧ d = '0' ∧ e = '\x7d' then
      (args.getD 0 "").data ++ formatAux args rest auto
    else if c = '\x7b' ∧ d = '1' ∧ e = '\x7d' then
      (args.getD 1 "").data ++ formatAux args rest auto
    else c :: formatAux args (d :: e :: rest) auto

/-- Python `str.format` restricted to the slot shapes above. -/
def pyFormat (template : String) (args : List String) : String :=
  String.mk (formatAux args template.data 0)

/-- Python dict lookup by key (first binding; keys are unique). -/
def dictGet (d : List (String × String)) (k : String) : Option String :=
  d.lookup k

/-- Python dict assignment `d[k] = v`: replaces the value in place when the
key exists, appends a new binding otherwise. -/
def dictSet (d : List (String × String)) (k v : String) : List (String × String) :=
  if d.any (fun kv => kv.1 = k) then d.map (fun kv => if kv.1 = k then (k, v) else kv)
  else d ++ [(k, v)]

/-- The `Toggl.headers` class template. -/
def togglHeaders : List (String × String) :=
  [("Authorization", ""), ("Content-Type", "application/json"),
   ("Accept", "*/*"), ("User-Agent", "python/urllib")]

/-- `Toggl.setAPIKey`:

    authHeader = api_key + ":" + "api_token"
    authHeader = "Basic " + b64encode(authHeader.encode()).decode('ascii').rstrip()
    self.headers['Authorization'] = authHeader
-/
def setAPIKey (headers : List (String × String)) (api_key : String) : List (String × String) :=
  let authHeader := api_key ++ ":" ++ "api_token"
  let authHeader := "Basic " ++ pyRstrip (b64encode (utf8Bytes authHeader))
  dictSet headers "Authorization" authHeader

/-- `Toggl.setAuthCredentials`:

    auth_header = '\x7b0\x7d:\x7b1\x7d'.format(email, password)
    auth_header = "Basic " + b64encode(auth_header.encode()).decode('ascii').rstrip()
    self.headers['Authorization'] = auth_header
-/
def setAuthCredentials (headers : List (String × String)) (email password : String) :
    List (String × String) :=
  let auth_header := pyFormat "\x7b0\x7d:\x7b1\x7d" [email, password]
  let auth_header := "Basic " ++ pyRstrip (b64encode (utf8Bytes auth_header))
  dictSet headers "Authorization" auth_header

theorem getD_mem_or_default (l : List Char) (n : Nat) (d : Char) :
    l.getD n d ∈ l ∨ l.getD n d = d := by
  induction l generalizing n with
  | nil => right; cases n <;> rfl
  | cons a t ih =>
    cases n with
    | zero => left; simp [List.getD]
    | succ m =>
      rcases ih m with h | h
      · left; simp [List.getD] at h ⊢; right; simpa using h
      · right; simpa [List.getD] using h

theorem b64char_not_space (n : Nat) : pySpace (b64char n) = false := by
  have hall : ∀ c ∈ b64chars, pySpace c = false := by decide
  rcases getD_mem_or_default b64chars n 'A' with h | h
  · exact hall _ h
  · rw [b64char] at *; rw [h]; rfl

theorem b64encodeL_not_space (bs : List Nat) : ∀ c ∈ b64encodeL bs, pySpace c = false := by
  induction bs using b64encodeL.induct with
  | case1 => intro c hc; simp [b64encodeL] at hc
  | case2 a =>
    intro c hc
    simp [b64encodeL] at hc
    rcases hc with h | h | h <;> subst h <;> first | exact b64char_not_space _ | rfl
  | case3 a b =>
    intro c hc
    simp [b64encodeL] at hc
    rcases hc with h | h | h | h <;> subst h <;> first | exact b64char_not_space _ | rfl
  | case4 a b cc rest ih =>
    intro c hc
    simp [b64encodeL] at hc
    rcases hc with h | h | h | h | h
    · subst h; exact b64char_not_space _
    · subst h; exact b64char_not_space _
    · subst h; exact b64char_not_space _
    · subst h; exact b64char_not_space _
    · exact ih c (by simpa using h)

theorem dropWhile_pySpace_of_none {l : List Char} (h : ∀ c ∈ l, pySpace c = false) :
    l.dropWhile pySpace = l := by
  cases l with
  | nil => rfl
  | cons a t => rw [List.dropWhile_cons, h a (by simp)]; simp

/-- `rstrip` is a no-op on base64 output: the alphabet and the padding
character contain no whitespace. -/
theorem pyRstrip_b64encode (bs : List Nat) : pyRstrip (b64encode bs) = b64encode bs := by
  unfold pyRstrip b64encode
  rw [dropWhile_pySpace_of_none, List.reverse_reverse]
  intro c hc
  exact b64encodeL_not_space bs c (by simpa using hc)

theorem lookup_map_replace (d : List (String × String)) (k v : String) :
    d.any (fun kv => kv.1 = k) = true →
    (d.map (fun kv => if kv.1 = k then (k, v) else kv)).lookup k = some v := by
  induction d with
  | nil => simp
  | cons hd t ih =>
    obtain ⟨a, b⟩ := hd
    intro h
    by_cases hk : a = k
    · subst hk
      simp only [List.map_cons]
      rw [if_pos trivial]
      simp [List.lookup]
    · have hba : (k == a) = false := by simp [Ne.symm hk]
      simp only [List.map_cons]
      rw [show ((if (a, b).1 = k then (k, v) else (a, b)) = (a, b)) from if_neg hk]
      simp [List.lookup, hba]
      apply ih
      simp [hk] at h
      simpa using h

theorem lookup_append_new (d : List (String × String)) (k v : String) :
    d.any (fun kv => kv.1 = k) = false →
    (d ++ [(k, v)]).lookup k = some v := by
  induction d with
  | nil => simp [List.lookup]
  | cons hd t ih =>
    obtain ⟨a, b⟩ := hd
    intro h
    simp at h
    have hba : (k == a) = false := by simp; exact Ne.symm h.1
    simp [List.lookup, hba]
    exact ih (by simp; exact h.2)

theorem dictSet_lookup (d : List (String × String)) (k v : String) :
    (dictSet d k v).lookup k = some v := by
  unfold dictSet
  split_ifs with h
  · exact lookup_map_replace d k v h
  · rw [Bool.not_eq_true] at h
    exact lookup_append_new d k v h

theorem pyFormat_pair (e p : String) : pyFormat "\x7b0\x7d:\x7b1\x7d" [e, p] = e ++ ":" ++ p := by
  apply String.ext
  show e.data ++ (':' :: (p.data ++ [])) = (e ++ ":" ++ p).data
  simp [String.data_append]

/-- C2 (confirmed): `setAPIKey(key)` sets the Authorization header to exactly
`"Basic " + base64(key + ":api_token")` and `setAuthCredentials(email,
password)` sets it to exactly `"Basic " + base64(email + ":" + password)`
(base64 over the UTF-8 bytes, with the source's trailing `rstrip()` a
no-op); each call fully overwrites whatever Authorization value the other
one had set. -/
theorem auth_header_claim_C2 (h : List (String × String)) (key email password : String) :
    dictGet (setAPIKey h key) "Authorization"
      = some ("Basic " ++ b64encode (utf8Bytes (key ++ ":api_token")))
    ∧ dictGet (setAuthCredentials h email password) "Authorization"
      = some ("Basic " ++ b64encode (utf8Bytes (email ++ ":" ++ password)))
    ∧ dictGet (setAPIKey (setAuthCredentials h email password) key) "Authorization"
      = some ("Basic " ++ b64encode (utf8Bytes (key ++ ":api_token")))
    ∧ dictGet (setAuthCredentials (setAPIKey h key) email password) "Authorization"
      = some ("Basic " ++ b64encode (utf8Bytes (email ++ ":" ++ password))) := by
  have hassoc : key ++ ":" ++ "api_token" = key ++ ":api_token" := by
    apply String.ext
    simp [String.data_append]
  have hkey : ∀ d : List (String × String), dictGet (setAPIKey d key) "Authorization"
      = some ("Basic " ++ b64encode (utf8Bytes (key ++ ":api_token"))) := by
    intro d
    unfold setAPIKey dictGet
    rw [dictSet_lookup, pyRstrip_b64encode, hassoc]
  have hcred : ∀ d : List (String × String),
      dictGet (setAuthCredentials d email password) "Authorization"
      = some ("Basic " ++ b64encode (utf8Bytes (email ++ ":" ++ password))) := by
    intro d
    unfold setAuthCredentials dictGet
    rw [dictSet_lookup, pyRstrip_b64encode, pyFormat_pair]
  exact ⟨hkey h, hcred h, hkey _, hcred _⟩

namespace Endpoints

/-- `Endpoints.TIME_ENTRIES`. -/
def TIME_ENTRIES : String := "https://api.track.toggl.com/api/v9/workspaces/\x7b\x7d/time_entries"

/-- `Endpoints.TIME_ENTRY`. -/
def TIME_ENTRY : String := "https://api.track.toggl.com/api/v9/workspaces/\x7b\x7d/time_entries/\x7b\x7d"

/-- `Endpoints.CURRENT`. -/
def CURRENT : String := "https://api.track.toggl.com/api/v9/me/time_entries/current"

/-- `Endpoints.START`. -/
def START : String := "https://api.track.toggl.com/api/v9/workspaces/\x7b\x7d/time_entries"

/-- `Endpoints.STOP`. -/
def STOP : String := "https://api.track.toggl.com/api/v9/workspaces/\x7b\x7d/time_entries/\x7b\x7d/stop"

/-- `Endpoints.CLIENTS`. -/
def CLIENTS : String := "https://api.track.toggl.com/api/v9/me/clients"

/-- `Endpoints.PROJECTS`. -/
def PROJECTS : String := "https://api.track.toggl.com/api/v9/me/projects"

/-- `Endpoints.WORKSPACES`. -/
def WORKSPACES : String := "https://api.track.toggl.com/api/v9/me/workspaces"

/-- `Endpoints.WORKSPACE_PROJECTS`. -/
def WORKSPACE_PROJECTS : String := "https://api.track.toggl.com/api/v9/workspaces/\x7b0\x7d/projects"

/-- `Endpoints.WORKSPACE_CLIENTS`. -/
def WORKSPACE_CLIENTS : String := "https://api.track.toggl.com/api/v9/workspaces/\x7b0\x7d/clients"

/-- `Endpoints.PROJECT_TASKS`. -/
def PROJECT_TASKS : String := "https://api.track.toggl.com/api/v9/workspaces/\x7b0\x7d/projects/\x7b1\x7d/tasks"

/-- `Endpoints.TASKS`. -/
def TASKS : String := "https://api.track.toggl.com/api/v9/workspaces/\x7b0\x7d/projects/\x7b1\x7d/tasks"

/-- `Endpoints.CURRENT_RUNNING_TIME`. -/
def CURRENT_RUNNING_TIME : String := "https://api.track.toggl.com/api/v9/me/time_entries/current"

end Endpoints

/-- The one HTTP request an operation issues, as method, fully resolved
endpoint URL and optional JSON body (the transport itself is an external
collaborator). -/
structure RequestSpec where
  method : String
  endpoint : String
  body : Option Json

/-- Python `str()` of a decoded JSON value, as it appears in `format`
argument positions.  The `repr`-style output for lists and dicts is not
reproduced (no operation verified here ever formats a container). -/
def pyStrOf : Json → String
  | .null => "None"
  | .bool b => if b then "True" else "False"
  | .num n => toString n
  | .str s => s
  | .arr _ => "<list>"
  | .obj _ => "<dict>"

/-- Python subscript `x['k']` with a string key: dict lookup (`KeyError` when
the key is missing), `TypeError` on lists (list indices must be integers)
and on scalars. -/
def pySubscript (j : Json) (k : String) : Except PyErr Json :=
  match j with
  | .obj kvs =>
    match kvs.lookup k with
    | some v => .ok v
    | none => .error .keyError
  | _ => .error .typeError

/-- Decimal digit run to a number (empty or non-digit input rejected). -/
def parseNat (cs : List Char) : Option Nat :=
  if cs.isEmpty then none
  else if cs.all Char.isDigit then
    some (cs.foldl (fun acc c => acc * 10 + (c.toNat - 48)) 0)
  else none

/-- Python `int(s)` on a string: optionally signed decimal with surrounding
whitespace allowed, `ValueError` otherwise (digit-grouping underscores are
not modelled). -/
def pyIntOfStr (s : String) : Except PyErr Int :=
  let cs := ((s.data.dropWhile pySpace).reverse.dropWhile pySpace).reverse
  match cs with
  | '-' :: rest =>
    match parseNat rest with
    | some n => .ok (-(n : Int))
    | none => .error .valueError
  | '+' :: rest =>
    match parseNat rest with
    | some n => .ok (n : Int)
    | none => .error .valueError
  | _ =>
    match parseNat cs with
    | some n => .ok (n : Int)
    | none => .error .valueError

/-- Python `int(x)` on a decoded JSON value: integers unchanged, booleans
0/1, strings parsed as decimal, `TypeError` on `None`, lists and dicts. -/
def pyIntConv (j : Json) : Except PyErr Int :=
  match j with
  | .num n => .ok n
  | .bool b => .ok (if b then 1 else 0)
  | .str s => pyIntOfStr s
  | _ => .error .typeError

/-- `Toggl.putTimeEntry`, modelled up to the PUT request it issues.  The
source raises `Exception(...)` when `id` is missing, `type(id) is not int`,
`workspace_id` is missing, or `type(workspace_id) is not int`; each raise
happens before `postRequest` is reached, so an `.error` result carries no
request.  On success the PUT body is the full `parameters` object. -/
def putTimeEntry (parameters : List (String × Json)) : Except PyErr RequestSpec :=
  match parameters.lookup "id" with
  | none => .error .exception
  | some id =>
    match id with
    | .num i =>
      match parameters.lookup "workspace_id" with
      | none => .error .exception
      | some wid =>
        match wid with
        | .num w =>
          .ok ⟨"PUT", pyFormat Endpoints.TIME_ENTRY [toString w, toString i],
               some (.obj parameters)⟩
        | _ => .error .exception
    | _ => .error .exception

/-- Outcome of `stopTimeEntry`: either no running entry (the function
returns `None` and issues no mutating request) or exactly one PATCH to the
given endpoint (whose decoded response the function then returns). -/
inductive StopResult where
  | noEntry
  | patch (endpoint : String)

/-- `Toggl.stopTimeEntry`.  `supplied` is the caller's `state` argument;
`fetched` stands for the decoded response the `CURRENT_RUNNING_TIME` GET
would return (`currentRunningTimeEntry` performs that fetch only when
`supplied` is `None`; a "nothing running" response decodes to `None`). -/
def stopTimeEntry (supplied fetched : Option Json) : Except PyErr StopResult :=
  let state := match supplied with
    | none => fetched
    | some s => some s
  match state with
  | none => .ok .noEntry
  | some st =>
    match pySubscript st "workspace_id" with
    | .error e => .error e
    | .ok w =>
      match pySubscript st "id" with
      | .error e => .error e
      | .ok i => .ok (.patch (pyFormat Endpoints.STOP [pyStrOf w, pyStrOf i]))

theorem formatAux_cons_ne (args : List String) (c : Char) (rest : List Char) (auto : Nat)
    (hc : c ≠ '\x7b') :
    formatAux args (c :: rest) auto = c :: formatAux args rest auto := by
  match rest with
  | [] => rfl
  | [d] =>
    rw [show formatAux args [c, d] auto
        = if c = '\x7b' ∧ d = '\x7d' then (args.getD auto "").data
          else c :: formatAux args [d] auto from rfl]
    rw [if_neg (fun h => hc h.1)]
  | d :: e :: r =>
    rw [show formatAux args (c :: d :: e :: r) auto
        = if c = '\x7b' ∧ d = '\x7d' then
            (args.getD auto "").data ++ formatAux args (e :: r) (auto + 1)
          else if c = '\x7b' ∧ d = '0' ∧ e = '\x7d' then
            (args.getD 0 "").data ++ formatAux args r auto
          else if c = '\x7b' ∧ d = '1' ∧ e = '\x7d' then
            (args.getD 1 "").data ++ formatAux args r auto
          else c :: formatAux args (d :: e :: r) auto from rfl]
    rw [if_neg (fun h => hc h.1), if_neg (fun h => hc h.1), if_neg (fun h => hc h.1)]

theorem formatAux_no_brace (args : List String) (pre post : List Char) (auto : Nat)
    (h : ∀ c ∈ pre, c ≠ '\x7b') :
    formatAux args (pre ++ post) auto = pre ++ formatAux args post auto := by
  induction pre with
  | nil => simp
  | cons c t ih =>
    rw [List.cons_append, formatAux_cons_ne args c (t ++ post) auto (h c (by simp)),
        ih (fun d hd => h d (by simp [hd])), List.cons_append]

theorem formatAux_slot (args : List String) (rest : List Char) (auto : Nat) :
    formatAux args ('\x7b' :: '\x7d' :: rest) auto
      = (args.getD auto "").data ++ formatAux args rest (auto + 1) := by
  match rest with
  | [] => exact (List.append_nil _).symm
  | e :: r => rfl

theorem formatAux_no_slot (args : List String) (l : List Char) (auto : Nat)
    (h : ∀ c ∈ l, c ≠ '\x7b') :
    formatAux args l auto = l := by
  induction l with
  | nil => rfl
  | cons c t ih =>
    rw [formatAux_cons_ne args c t auto (h c (by simp)), ih (fun d hd => h d (by simp [hd]))]

/-- Fully resolved form of the STOP endpoint template. -/
theorem pyFormat_STOP (a b : String) :
    pyFormat Endpoints.STOP [a, b]
      = "https://api.track.toggl.com/api/v9/workspaces/" ++ a ++ "/time_entries/" ++ b
        ++ "/stop" := by
  apply String.ext
  have hdata : Endpoints.STOP.data
      = "https://api.track.toggl.com/api/v9/workspaces/".data
        ++ '\x7b' :: '\x7d' :: ("/time_entries/".data
        ++ '\x7b' :: '\x7d' :: "/stop".data) := rfl
  show formatAux [a, b] Endpoints.STOP.data 0 = _
  rw [hdata, formatAux_no_brace _ _ _ _ (by decide), formatAux_slot,
      formatAux_no_brace _ _ _ _ (by decide), formatAux_slot,
      formatAux_no_slot _ _ _ (by decide)]
  simp [String.data_append, List.getD]

/-- C4 (confirmed): `putTimeEntry` fails with the validation exception when
`id` is absent, when `id` is not an integer, when `workspace_id` is absent,
or when `workspace_id` is not an integer — in the model an `.error` result
carries no request, so no network call is issued; otherwise it issues
exactly one PUT to the single-entry endpoint with the full input object as
the body. -/
theorem putTimeEntry_claim_C4 (parameters : List (String × Json)) (i w : Int) :
    (parameters.lookup "id" = none → putTimeEntry parameters = .error .exception)
    ∧ (∀ v, parameters.lookup "id" = some v → (∀ m : Int, v ≠ .num m) →
        putTimeEntry parameters = .error .exception)
    ∧ (parameters.lookup "id" = some (.num i) → parameters.lookup "workspace_id" = none →
        putTimeEntry parameters = .error .exception)
    ∧ (∀ v, parameters.lookup "id" = some (.num i) →
        parameters.lookup "workspace_id" = some v → (∀ m : Int, v ≠ .num m) →
        putTimeEntry parameters = .error .exception)
    ∧ (parameters.lookup "id" = some (.num i) →
        parameters.lookup "workspace_id" = some (.num w) →
        putTimeEntry parameters =
          .ok ⟨"PUT", pyFormat Endpoints.TIME_ENTRY [toString w, toString i],
               some (.obj parameters)⟩) := by
  refine ⟨?_, ?_, ?_, ?_, ?_⟩
  · intro h
    simp [putTimeEntry, h]
  · intro v hv hne
    cases v with
    | num m => exact absurd rfl (hne m)
    | null => simp [putTimeEntry, hv]
    | bool b => simp [putTimeEntry, hv]
    | str s => simp [putTimeEntry, hv]
    | arr xs => simp [putTimeEntry, hv]
    | obj kvs => simp [putTimeEntry, hv]
  · intro h1 h2
    simp [putTimeEntry, h1, h2]
  · intro v h1 h2 hne
    cases v with
    | num m => exact absurd rfl (hne m)
    | null => simp [putTimeEntry, h1, h2]
    | bool b => simp [putTimeEntry, h1, h2]
    | str s => simp [putTimeEntry, h1, h2]
    | arr xs => simp [putTimeEntry, h1, h2]
    | obj kvs => simp [putTimeEntry, h1, h2]
  · intro h1 h2
    simp [putTimeEntry, h1, h2]

/-- C4, witness: the two failing inputs from the specification and a valid
update, evaluated through the theorem. -/
theorem putTimeEntry_claim_C4_witness :
    putTimeEntry [("workspace_id", .num 5)] = .error .exception
    ∧ putTimeEntry [("id", .str "7"), ("workspace_id", .num 5)] = .error .exception
    ∧ putTimeEntry [("id", .num 7), ("workspace_id", .num 5)] =
        .ok ⟨"PUT", pyFormat Endpoints.TIME_ENTRY [toString (5 : Int), toString (7 : Int)],
             some (.obj [("id", .num 7), ("workspace_id", .num 5)])⟩ := by
  refine ⟨?_, ?_, ?_⟩
  · exact (putTimeEntry_claim_C4 [("workspace_id", .num 5)] 0 0).1 rfl
  · exact (putTimeEntry_claim_C4 [("id", .str "7"), ("workspace_id", .num 5)] 0 0).2.1
      (.str "7") rfl (fun m h => nomatch h)
  · exact (putTimeEntry_claim_C4 [("id", .num 7), ("workspace_id", .num 5)] 7 5).2.2.2.2
      rfl rfl

/-- C5 (confirmed): when the resolved current entry is absent — no state
supplied and the fetched current entry is `None` — `stopTimeEntry` returns
`None` and issues no PATCH; when a running entry with `workspace_id` and
`id` fields exists (fetched or caller-supplied), it issues exactly one PATCH
to the stop endpoint keyed by those two fields. -/
theorem stopTimeEntry_claim_C5 (fetched : Option Json) (st : Json) (w i : Int) :
    stopTimeEntry none none = .ok .noEntry
    ∧ (pySubscript st "workspace_id" = .ok (.num w) → pySubscript st "id" = .ok (.num i) →
        stopTimeEntry none (some st)
          = .ok (.patch (pyFormat Endpoints.STOP [toString w, toString i]))
        ∧ stopTimeEntry (some st) fetched
          = .ok (.patch (pyFormat Endpoints.STOP [toString w, toString i]))) := by
  refine ⟨rfl, ?_⟩
  intro hw hi
  constructor
  · simp [stopTimeEntry, hw, hi, pyStrOf]
  · simp [stopTimeEntry, hw, hi, pyStrOf]

/-- C5, witness: the theorem applied to a concrete running entry. -/
theorem stopTimeEntry_claim_C5_witness :
    stopTimeEntry none (some (.obj [("workspace_id", .num 3), ("id", .num 7)]))
      = .ok (.patch (pyFormat Endpoints.STOP [toString (3 : Int), toString (7 : Int)])) := by
  exact ((stopTimeEntry_claim_C5 none (.obj [("workspace_id", .num 3), ("id", .num 7)]) 3 7).2
    rfl rfl).1

set_option maxRecDepth 8192 in
/-- C8, counterexample: the claim (following the spec's endpoint table)
says stop PATCHes the same path template as get/update/delete of a single
entry, `/api/v9/workspaces/\x7b0\x7d/time_entries/\x7b1\x7d` — but the code's
STOP endpoint carries a trailing `/stop` segment, a different path. -/
theorem stop_endpoint_cex_C8 :
    stopTimeEntry none (some (.obj [("workspace_id", .num 3), ("id", .num 7)]))
      = .ok (.patch "https://api.track.toggl.com/api/v9/workspaces/3/time_entries/7/stop")
    ∧ "https://api.track.toggl.com/api/v9/workspaces/3/time_entries/7/stop"
        ≠ pyFormat Endpoints.TIME_ENTRY ["3", "7"] := by
  constructor
  · rfl
  · decide

/-- C8 (amended): stop issues its PATCH to the single-entry path followed by
a `/stop` suffix: `/api/v9/workspaces/\x7b0\x7d/time_entries/\x7b1\x7d/stop`,
with the entry's workspace id and entry id substituted. -/
theorem stop_endpoint_claim_C8 (st : Json) (w i : Int) :
    pySubscript st "workspace_id" = .ok (.num w) → pySubscript st "id" = .ok (.num i) →
    stopTimeEntry none (some st)
      = .ok (.patch ("https://api.track.toggl.com/api/v9/workspaces/" ++ toString w
          ++ "/time_entries/" ++ toString i ++ "/stop")) := by
  intro hw hi
  simp [stopTimeEntry, hw, hi, pyStrOf, pyFormat_STOP]

/-- C8, witness: the amended theorem at a concrete entry. -/
theorem stop_endpoint_claim_C8_witness :
    stopTimeEntry none (some (.obj [("workspace_id", .num 3), ("id", .num 7)]))
      = .ok (.patch ("https://api.track.toggl.com/api/v9/workspaces/" ++ toString (3 : Int)
          ++ "/time_entries/" ++ toString (7 : Int) ++ "/stop")) := by
  exact stop_endpoint_claim_C8 (.obj [("workspace_id", .num 3), ("id", .num 7)]) 3 7 rfl rfl

/-- Gregorian leap-year test, as in Python's `calendar`/`datetime`. -/
def isLeapYear (y : Int) : Bool := y % 4 = 0 && (y % 100 ≠ 0 || y % 400 = 0)

/-- Days in a month of the proleptic Gregorian calendar. -/
def daysInMonth (y m : Int) : Int :=
  if m = 2 then (if isLeapYear y then 29 else 28)
  else if m = 4 ∨ m = 6 ∨ m = 9 ∨ m = 11 then 30
  else 31

/-- A constructed `datetime.datetime` value with whole-hour precision (the
only shape the library builds: minute, second and microsecond are zero). -/
structure PyDateTime where
  year : Int
  month : Int
  day : Int
  hour : Int

/-- The `datetime(year, month, day, hour)` constructor.  CPython validates
each field — `MINYEAR (1) <= year <= MAXYEAR (9999)`, `1 <= month <= 12`,
`1 <= day <= days_in_month`, `0 <= hour <= 23` — and raises `ValueError` on
any violation; it never normalizes an out-of-range field or rolls dates
over. -/
def mkDatetime (year month day hour : Int) : Except PyErr PyDateTime :=
  if year < 1 ∨ 9999 < year then .error .valueError
  else if month < 1 ∨ 12 < month then .error .valueError
  else if day < 1 ∨ daysInMonth year month < day then .error .valueError
  else if hour < 0 ∨ 23 < hour then .error .valueError
  else .ok ⟨year, month, day, hour⟩

/-- Decimal rendering zero-padded to a width, as in `datetime` formatting. -/
def padNum (width : Nat) (n : Int) : String :=
  let s := toString n
  if s.length < width then String.mk (List.replicate (width - s.length) '0') ++ s else s

/-- `datetime.isoformat()` for a whole-hour value: `YYYY-MM-DDTHH:00:00`
(microsecond zero, so no fractional part is printed). -/
def pyIsoformat (dt : PyDateTime) : String :=
  padNum 4 dt.year ++ "-" ++ padNum 2 dt.month ++ "-" ++ padNum 2 dt.day ++ "T"
    ++ padNum 2 dt.hour ++ ":00:00"

/-- The components of `datetime.now()` read by `createTimeEntry`'s
defaulting (the local clock is an external collaborator). -/
structure NowTime where
  year : Int
  month : Int
  day : Int
  hour : Int

/-- The `x = datetime.now().f if not x else x` defaulting used for the
year/month/day/hour parameters.  Python's `not` tests truthiness, so both
`None` (absent) and `0` select the current-time component. -/
def resolveDateField (arg : Option Int) (nowVal : Int) : Int :=
  match arg with
  | none => nowVal
  | some v => if v = 0 then nowVal else v

/-- The start-timestamp computation of `Toggl.createTimeEntry`:

    year = datetime.now().year if not year else year
    month = datetime.now().month if not month else month
    day = datetime.now().day if not day else day
    hour = datetime.now().hour if not hour else hour
    timestruct = datetime(year, month, day, hour + hour_diff).isoformat() + '.000Z'
-/
def createTimeEntryStart (now : NowTime) (year month day hour : Option Int)
    (hour_diff : Int) : Except PyErr String :=
  let year := resolveDateField year now.year
  let month := resolveDateField month now.month
  let day := resolveDateField day now.day
  let hour := resolveDateField hour now.hour
  match mkDatetime year month day (hour + hour_diff) with
  | .error e => .error e
  | .ok dt => .ok (pyIsoformat dt ++ ".000Z")

/-- `Toggl.createTimeEntry`, modelled up to the POST request it issues, for
a caller that passes a non-falsy `project_id` (the name-based project
resolution path calls `getClientProject`/`searchClientProject`, which are
commented out in this version of the source, and the no-project path calls
`exit(1)`; neither is modelled). -/
def createTimeEntry (now : NowTime) (hour_duration : Int) (wid : Int)
    (description : Option String) (project_id : Int) (taskid : Option Int)
    (year month day hour : Option Int) (billable : Bool) (hour_diff : Int) :
    Except PyErr RequestSpec :=
  match createTimeEntryStart now year month day hour hour_diff with
  | .error e => .error e
  | .ok timestruct =>
    let time_entry : List (String × Json) :=
      [("start", .str timestruct),
       ("duration", .num (hour_duration * 3600)),
       ("pid", .num project_id),
       ("created_with", .str "NAME"),
       ("billable", .bool billable)]
    let time_entry := match description with
      | some d => if d = "" then time_entry else time_entry ++ [("description", .str d)]
      | none => time_entry
    let time_entry := match taskid with
      | some t => if t = 0 then time_entry else time_entry ++ [("tid", .num t)]
      | none => time_entry
    .ok ⟨"POST", pyFormat Endpoints.TIME_ENTRIES [toString wid], some (.obj time_entry)⟩

theorem mkDatetime_hour_out (y m d hr : Int) (h : hr < 0 ∨ 23 < hr) :
    mkDatetime y m d hr = .error .valueError := by
  unfold mkDatetime
  split_ifs <;> first | rfl | omega

/-- C3, counterexample: with the explicit date 2024-01-15, hour 1 and the
default `hour_diff = -2`, the constructed hour is `1 + (-2) = -1`; the claim
says the start timestamp rolls over into the adjacent day
(`2024-01-14T23:00:00.000Z`), but the `datetime` constructor raises
`ValueError`, so `createTimeEntry` fails instead of succeeding. -/
theorem createTimeEntry_rollover_cex_C3 :
    createTimeEntryStart ⟨2026, 10, 12, 9⟩ (some 2024) (some 1) (some 15) (some 1) (-2)
      = .error .valueError
    ∧ createTimeEntryStart ⟨2026, 10, 12, 9⟩ (some 2024) (some 1) (some 15) (some 1) (-2)
      ≠ .ok "2024-01-14T23:00:00.000Z" := by
  refine ⟨rfl, ?_⟩
  intro h
  rw [show createTimeEntryStart ⟨2026, 10, 12, 9⟩ (some 2024) (some 1) (some 15) (some 1) (-2)
      = Except.error PyErr.valueError from rfl] at h
  exact nomatch h

/-- C3 (amended): whenever the hour passed to the `datetime` constructor —
the resolved hour plus `hour_diff` — is negative or exceeds 23, the
constructor raises `ValueError` and the operation fails; no calendar
rollover takes place.  (Stated for an explicitly passed non-zero hour; a
zero or absent hour is replaced by the current hour first.) -/
theorem createTimeEntry_hour_range_claim_C3 (now : NowTime) (y m d h hd : Int)
    (hh : h ≠ 0) (hrange : h + hd < 0 ∨ 23 < h + hd) :
    createTimeEntryStart now (some y) (some m) (some d) (some h) hd
      = .error .valueError := by
  simp only [createTimeEntryStart, resolveDateField]
  rw [if_neg hh, mkDatetime_hour_out _ _ _ _ hrange]

/-- C3, witness: the amended theorem at the counterexample's input. -/
theorem createTimeEntry_hour_range_claim_C3_witness :
    createTimeEntryStart ⟨2026, 10, 12, 9⟩ (some 2024) (some 1) (some 15) (some 1) (-2)
      = .error .valueError :=
  createTimeEntry_hour_range_claim_C3 ⟨2026, 10, 12, 9⟩ 2024 1 15 1 (-2)
    (by decide) (by decide)

/-- C10 (confirmed): an explicitly passed `0` for year, month, day or hour
is falsy, so the `x if not x else x` defaulting replaces it by the
corresponding `datetime.now()` component exactly as if the argument had
been omitted — in particular `hour=0` (midnight) builds the start from the
current local hour, not from 0. -/
theorem createTimeEntry_falsy_zero_claim_C10 (now : NowTime) (hd : Int) (v : Int) :
    createTimeEntryStart now (some 0) (some 0) (some 0) (some 0) hd
      = createTimeEntryStart now none none none none hd
    ∧ resolveDateField (some 0) v = v
    ∧ resolveDateField none v = v := by
  exact ⟨rfl, rfl, rfl⟩

/-- Floor of a rational (`q.den` is positive, so integer division of the
numerator by the denominator floors). -/
def ratFloor (q : ℚ) : Int := q.num / (q.den : Int)

/-- Python `int(x)` on a float value: truncation toward zero.  The
`time.time()` clock is modelled as an exact rational number of seconds. -/
def pyTrunc (q : ℚ) : Int := q.num.tdiv (q.den : Int)

/-- Gregorian date from a count of days since the Unix epoch (the civil
calendar algorithm used by `datetime`). -/
def civilFromDays (z0 : Int) : Int × Int × Int :=
  let z := z0 + 719468
  let era := Int.fdiv z 146097
  let doe := (z - era * 146097).toNat
  let yoe := (doe - doe / 1460 + doe / 36524 - doe / 146096) / 365
  let y : Int := (yoe : Int) + era * 400
  let doy := doe - (365 * yoe + yoe / 4 - yoe / 100)
  let mp := (5 * doy + 2) / 153
  let d := doy - (153 * mp + 2) / 5 + 1
  let m : Int := (mp : Int) + (if mp < 10 then 3 else -9)
  (if m ≤ 2 then y + 1 else y, m, (d : Int))

/-- `datetime.utcfromtimestamp(now).isoformat(timespec="seconds")`: the UTC
calendar time of a Unix timestamp, printed to second precision.  The
fractional part is truncated (CPython rounds it to microseconds first,
which can bump the second only when the fraction is within half a
microsecond of 1; that float-rounding corner is idealized away along with
the float representation itself). -/
def utcfromtimestampIso (now : ℚ) : String :=
  let total := ratFloor now
  let days := Int.fdiv total 86400
  let secs := (total - days * 86400).toNat
  let ymd := civilFromDays days
  padNum 4 ymd.1 ++ "-" ++ padNum 2 ymd.2.1 ++ "-" ++ padNum 2 ymd.2.2 ++ "T"
    ++ padNum 2 ((secs / 3600 : Nat) : Int) ++ ":"
    ++ padNum 2 (((secs % 3600) / 60 : Nat) : Int) ++ ":"
    ++ padNum 2 ((secs % 60 : Nat) : Int)

/-- `Toggl.startTimeEntry`, modelled up to the POST request it issues.
`now` is the `time.time()` value; `user_agent` the configured agent string
(`created_with`).  The payload is built exactly as in the source:

    now = time.time()
    start_rfc3339 = datetime.utcfromtimestamp(now).isoformat(timespec="seconds") + "Z"
    tags = []
    if tag: tags.append(tag)
    json_dict = { "tags": tags, "start": start_rfc3339, "duration": -1 * int(now),
                  "workspace_id": int(wid), "project_id": int(pid),
                  "description": description, "created_with": self.user_agent }
    state = self.postRequest(Endpoints.START.format(wid), parameters=json_dict)

`if tag:` is a truthiness test, so an empty-string tag is not appended.
`int(wid)` / `int(pid)` raise before any request when not convertible (in
particular the default `pid=None` raises `TypeError`). -/
def startTimeEntry (now : ℚ) (user_agent : String) (description : Json)
    (wid pid : Json) (tag : Option String) : Except PyErr RequestSpec :=
  let start_rfc3339 := utcfromtimestampIso now ++ "Z"
  let tags : List String := match tag with
    | none => []
    | some t => if t = "" then [] else [t]
  match pyIntConv wid with
  | .error e => .error e
  | .ok w =>
    match pyIntConv pid with
    | .error e => .error e
    | .ok p =>
      .ok ⟨"POST", pyFormat Endpoints.START [pyStrOf wid],
           some (.obj
             [("tags", .arr (tags.map Json.str)),
              ("start", .str start_rfc3339),
              ("duration", .num (-1 * pyTrunc now)),
              ("workspace_id", .num w),
              ("project_id", .num p),
              ("description", description),
              ("created_with", .str user_agent)])⟩

/-- Field of the JSON body of a request. -/
def bodyLookup (r : RequestSpec) (k : String) : Option Json :=
  match r.body with
  | some (.obj kvs) => kvs.lookup k
  | _ => none

theorem pyTrunc_eq_floor (q : ℚ) (h : 0 ≤ q) : pyTrunc q = ⌊q⌋ := by
  unfold pyTrunc
  rw [Rat.floor_def]
  exact Int.tdiv_eq_ediv (Rat.num_nonneg.mpr h) (Int.natCast_nonneg _)

set_option maxRecDepth 16384 in
/-- C6, counterexample: the claim says a supplied tag always yields the
singleton `tags == [tag]`, but `if tag:` tests truthiness, so the supplied
empty-string tag produces `tags == []`, not `[""]` (full payload computed
at `now = 1700000000`, i.e. 2023-11-14T22:13:20 UTC). -/
theorem startTimeEntry_empty_tag_cex_C6 :
    startTimeEntry 1700000000 "TogglPy" (.str "d") (.num 1) (.num 2) (some "")
      = .ok ⟨"POST", "https://api.track.toggl.com/api/v9/workspaces/1/time_entries",
          some (.obj
            [("tags", .arr []),
             ("start", .str "2023-11-14T22:13:20Z"),
             ("duration", .num (-1700000000)),
             ("workspace_id", .num 1),
             ("project_id", .num 2),
             ("description", .str "d"),
             ("created_with", .str "TogglPy")])⟩
    ∧ Json.arr ([] : List Json) ≠ Json.arr [.str ""] := by
  refine ⟨rfl, ?_⟩
  intro h
  simp at h

/-- C6 (amended): in every payload `startTimeEntry` sends, `tags` is the
empty list when no tag argument or an empty-string tag is supplied and the
singleton `[tag]` when a non-empty tag is supplied, and `duration` equals
`-1` times the floor of the current Unix time in seconds (the code
truncates via `int()`, which agrees with the floor for the nonnegative
clock). -/
theorem startTimeEntry_claim_C6 (now : ℚ) (ua : String) (desc : Json) (wid pid : Json)
    (tag : Option String) (r : RequestSpec) (hnow : 0 ≤ now)
    (hr : startTimeEntry now ua desc wid pid tag = .ok r) :
    bodyLookup r "tags"
      = some (.arr ((match tag with
          | none => []
          | some t => if t = "" then [] else [t]).map Json.str))
    ∧ bodyLookup r "duration" = some (.num (-1 * ⌊now⌋)) := by
  simp only [startTimeEntry] at hr
  cases hw : pyIntConv wid with
  | error e => rw [hw] at hr; exact nomatch hr
  | ok w =>
    rw [hw] at hr
    cases hp : pyIntConv pid with
    | error e => rw [hp] at hr; exact nomatch hr
    | ok p =>
      rw [hp] at hr
      injection hr with hr
      subst hr
      rw [← pyTrunc_eq_floor now hnow]
      exact ⟨rfl, rfl⟩

/-- C6, witness: the amended theorem at a concrete call with a non-empty
tag. -/
theorem startTimeEntry_claim_C6_witness :
    bodyLookup ⟨"POST", "https://api.track.toggl.com/api/v9/workspaces/1/time_entries",
        some (.obj
          [("tags", .arr [.str "t"]),
           ("start", .str "2023-11-14T22:13:20Z"),
           ("duration", .num (-1700000000)),
           ("workspace_id", .num 1),
           ("project_id", .num 2),
           ("description", .str "d"),
           ("created_with", .str "TogglPy")])⟩ "tags"
      = some (.arr [.str "t"])
    ∧ bodyLookup ⟨"POST", "https://api.track.toggl.com/api/v9/workspaces/1/time_entries",
        some (.obj
          [("tags", .arr [.str "t"]),
           ("start", .str "2023-11-14T22:13:20Z"),
           ("duration", .num (-1700000000)),
           ("workspace_id", .num 1),
           ("project_id", .num 2),
           ("description", .str "d"),
           ("created_with", .str "TogglPy")])⟩ "duration"
      = some (.num (-1 * ⌊(1700000000 : ℚ)⌋)) := by
  exact startTimeEntry_claim_C6 1700000000 "TogglPy" (.str "d") (.num 1) (.num 2)
    (some "t") _ (by norm_num) rfl

/-- Python `==` between a decoded JSON value and an `int` (booleans are
ints in Python: `True == 1`); every other type compares unequal. -/
def pyEqInt (j : Json) (n : Int) : Bool :=
  match j with
  | .num m => m = n
  | .bool b => (if b then (1 : Int) else 0) = n
  | _ => false

/-- Python `==` between a decoded JSON value and a `str`. -/
def pyEqStr (j : Json) (s : String) : Bool :=
  match j with
  | .str t => t = s
  | _ => false

/-- The id-branch loop shared by `getWorkspace` and `getClient`:

    for item in items:
        if item['id'] == int(arg):
            return item
    return None

(`int(arg)` is evaluated inside the loop, after the subscript). -/
def scanEqInt (items : List Json) (key : String) (arg : Json) :
    Except PyErr (Option Json) :=
  match items with
  | [] => .ok none
  | x :: rest =>
    match pySubscript x key with
    | .error e => .error e
    | .ok v =>
      match pyIntConv arg with
      | .error e => .error e
      | .ok t => if pyEqInt v t then .ok (some x) else scanEqInt rest key arg

/-- The name-branch loop shared by `getWorkspace` and `getClient`. -/
def scanEqStr (items : List Json) (key : String) (name : String) :
    Except PyErr (Option Json) :=
  match items with
  | [] => .ok none
  | x :: rest =>
    match pySubscript x key with
    | .error e => .error e
    | .ok v => if pyEqStr v name then .ok (some x) else scanEqStr rest key name

/-- `Toggl.getWorkspace`.  `workspaces` is the decoded listing that
`getWorkspaces()` returned; the Bool records whether the "please enter
either a name or an id" error message was printed (the print-then-return-
None path for missing filters). -/
def getWorkspace (workspaces : List Json) (name : Option String)
    (workspace_id : Option Json) : Except PyErr (Bool × Option Json) :=
  match name, workspace_id with
  | none, none => .ok (true, none)
  | _, some wArg =>
    match scanEqInt workspaces "id" wArg with
    | .error e => .error e
    | .ok r => .ok (false, r)
  | some n, none =>
    match scanEqStr workspaces "name" n with
    | .error e => .error e
    | .ok r => .ok (false, r)

/-- `Toggl.getClient`: identical scan logic over the decoded `getClients()`
listing (the source duplicates the loops, with an explicit `return None`
after each; the returned values are the same). -/
def getClient (clients : List Json) (name : Option String)
    (client_id : Option Json) : Except PyErr (Bool × Option Json) :=
  match name, client_id with
  | none, none => .ok (true, none)
  | _, some cArg =>
    match scanEqInt clients "id" cArg with
    | .error e => .error e
    | .ok r => .ok (false, r)
  | some n, none =>
    match scanEqStr clients "name" n with
    | .error e => .error e
    | .ok r => .ok (false, r)

/-- Whether `x[key]` succeeds. -/
def subscriptOk (x : Json) (key : String) : Bool :=
  match pySubscript x key with
  | .ok _ => true
  | .error _ => false

/-- Specification-side predicate: the element's `key` field equals the
integer `t`. -/
def matchesKeyInt (x : Json) (key : String) (t : Int) : Bool :=
  match pySubscript x key with
  | .ok v => pyEqInt v t
  | .error _ => false

/-- Specification-side predicate: the element's `key` field equals the
string `s`. -/
def matchesKeyStr (x : Json) (key : String) (s : String) : Bool :=
  match pySubscript x key with
  | .ok v => pyEqStr v s
  | .error _ => false

theorem scanEqInt_eq_find (items : List Json) (key : String) (t : Int)
    (h : ∀ x ∈ items, subscriptOk x key = true) :
    scanEqInt items key (.num t) = .ok (items.find? (fun x => matchesKeyInt x key t)) := by
  induction items with
  | nil => rfl
  | cons x rest ih =>
    have hx := h x (List.mem_cons_self x rest)
    have hrest : ∀ y ∈ rest, subscriptOk y key = true :=
      fun y hy => h y (List.mem_cons_of_mem x hy)
    rcases hv : pySubscript x key with e | v
    · unfold subscriptOk at hx
      rw [hv] at hx
      exact absurd hx (by simp)
    · have hmatch : matchesKeyInt x key t = pyEqInt v t := by
        unfold matchesKeyInt
        rw [hv]
      by_cases hm : pyEqInt v t = true
      · simp only [scanEqInt, hv, show pyIntConv (Json.num t) = Except.ok t from rfl]
        rw [if_pos hm, List.find?_cons_of_pos _ (by rw [hmatch, hm])]
      · have hm' : pyEqInt v t = false := by simpa using hm
        simp only [scanEqInt, hv, show pyIntConv (Json.num t) = Except.ok t from rfl]
        rw [if_neg hm, List.find?_cons_of_neg _ (by simp [hmatch, hm']), ih hrest]

theorem scanEqStr_eq_find (items : List Json) (key : String) (s : String)
    (h : ∀ x ∈ items, subscriptOk x key = true) :
    scanEqStr items key s = .ok (items.find? (fun x => matchesKeyStr x key s)) := by
  induction items with
  | nil => rfl
  | cons x rest ih =>
    have hx := h x (List.mem_cons_self x rest)
    have hrest : ∀ y ∈ rest, subscriptOk y key = true :=
      fun y hy => h y (List.mem_cons_of_mem x hy)
    rcases hv : pySubscript x key with e | v
    · unfold subscriptOk at hx
      rw [hv] at hx
      exact absurd hx (by simp)
    · have hmatch : matchesKeyStr x key s = pyEqStr v s := by
        unfold matchesKeyStr
        rw [hv]
      by_cases hm : pyEqStr v s = true
      · simp only [scanEqStr, hv]
        rw [if_pos hm, List.find?_cons_of_pos _ (by rw [hmatch, hm])]
      · have hm' : pyEqStr v s = false := by simpa using hm
        simp only [scanEqStr, hv]
        rw [if_neg hm, List.find?_cons_of_neg _ (by simp [hmatch, hm']), ih hrest]

/-- C7 (confirmed): for both lookups, giving neither a name nor an id
reports the error and returns absent; giving an integer id scans the full
listing by exact integer equality on the `id` field and returns the first
match in listing order (absent when none matches); giving a name and no id
scans by exact string equality on the `name` field the same way. -/
theorem lookup_by_name_or_id_claim_C7 (ws cs : List Json) (n : String) (i : Int) :
    getWorkspace ws none none = .ok (true, none)
    ∧ getClient cs none none = .ok (true, none)
    ∧ ((∀ x ∈ ws, subscriptOk x "id" = true) →
        getWorkspace ws none (some (.num i))
          = .ok (false, ws.find? (fun x => matchesKeyInt x "id" i)))
    ∧ ((∀ x ∈ cs, subscriptOk x "id" = true) →
        getClient cs none (some (.num i))
          = .ok (false, cs.find? (fun x => matchesKeyInt x "id" i)))
    ∧ ((∀ x ∈ ws, subscriptOk x "name" = true) →
        getWorkspace ws (some n) none
          = .ok (false, ws.find? (fun x => matchesKeyStr x "name" n)))
    ∧ ((∀ x ∈ cs, subscriptOk x "name" = true) →
        getClient cs (some n) none
          = .ok (false, cs.find? (fun x => matchesKeyStr x "name" n))) := by
  refine ⟨rfl, rfl, ?_, ?_, ?_, ?_⟩
  · intro h
    simp only [getWorkspace, scanEqInt_eq_find ws "id" i h]
  · intro h
    simp only [getClient, scanEqInt_eq_find cs "id" i h]
  · intro h
    simp only [getWorkspace, scanEqStr_eq_find ws "name" n h]
  · intro h
    simp only [getClient, scanEqStr_eq_find cs "name" n h]

/-- C7, witness: the specification's example listing, looked up by id 2
(second element), by id 99 (absent), and with no filter at all. -/
theorem lookup_by_name_or_id_claim_C7_witness :
    getWorkspace [.obj [("id", .num 1)], .obj [("id", .num 2)]] none (some (.num 2))
      = .ok (false, some (.obj [("id", .num 2)]))
    ∧ getClient [.obj [("id", .num 1)], .obj [("id", .num 2)]] none (some (.num 99))
      = .ok (false, none)
    ∧ getWorkspace [] none none = .ok (true, none) := by
  refine ⟨?_, ?_, ?_⟩
  · exact (lookup_by_name_or_id_claim_C7
      [.obj [("id", .num 1)], .obj [("id", .num 2)]] [] "" 2).2.2.1 (by decide)
  · exact (lookup_by_name_or_id_claim_C7
      [] [.obj [("id", .num 1)], .obj [("id", .num 2)]] "" 99).2.2.2.1 (by decide)
  · exact (lookup_by_name_or_id_claim_C7 [] [] "" 0).1

/-- Optional string argument as the JSON value Python would serialize
(`None` becomes JSON `null`). -/
def optStr : Option String → Json
  | some s => .str s
  | none => .null

/-- `Toggl.updateClient`, modelled up to the PUT request it issues:

    data = { 'name': name, 'notes': notes, 'wid:': wid }
    response = self.postRequest(
        Endpoints.WORKSPACE_CLIENTS.format(wid) + '/\x7b0\x7d'.format(id),
        parameters=data, method='PUT')

Note the third dict key is literally `'wid:'` — with a trailing colon —
in the source. -/
def updateClient (wid id : Int) (name notes : Option String) : RequestSpec :=
  let data : List (String × Json) :=
    [("name", optStr name), ("notes", optStr notes), ("wid:", .num wid)]
  ⟨"PUT",
   pyFormat Endpoints.WORKSPACE_CLIENTS [toString wid]
     ++ pyFormat "/\x7b0\x7d" [toString id],
   some (.obj data)⟩

/-- C9 (code bug): the claim — consistent with `createClient`, which sends
`'wid'` — says every update-client payload carries the keys `name`, `notes`
and `wid`.  The payload does always carry `name` and `notes`, but the third
key is the misspelled `'wid:'` (trailing colon), so a key named `wid` is
never sent.  Evaluated at wid=1, id=2, name="n", notes=None. -/
theorem updateClient_wid_key_bug_C9 :
    (match (updateClient 1 2 (some "n") none).body with
     | some (.obj kvs) => kvs.map (fun kv => kv.1)
     | _ => [])
      = ["name", "notes", "wid:"]
    ∧ bodyLookup (updateClient 1 2 (some "n") none) "wid" = none
    ∧ bodyLookup (updateClient 1 2 (some "n") none) "wid:" = some (.num 1)
    ∧ bodyLookup (updateClient 1 2 (some "n") none) "name" = some (.str "n")
    ∧ bodyLookup (updateClient 1 2 (some "n") none) "notes" = some .null := by
  exact ⟨rfl, rfl, rfl, rfl, rfl⟩
